import Mathlib

/-!
Shallow embedding of the crop-health assessment page
(`src/app/dashboard/farmer/assess/page.tsx`) of the AgriGenie repository.

The page keeps React state (selected image, preview URL, loading flags,
assessment result, toast queue) and orchestrates two network calls:
a diagnostic call (Plant.id health assessment) and a treatment-generation
call.  Network outcomes are modelled as explicit parameters
(`DiagOutcome`, `GenOutcome`); the event handlers become pure state
transformers that additionally report the network calls they issued and
the sequence of values passed to `setResult`.
-/

namespace AgriGenie

/-- A browser `File` together with the object URL `URL.createObjectURL`
would mint for it. -/
structure FileModel where
  name : String
  objectURL : String
deriving DecidableEq

/-- `interface Disease` from the page: name, probability, optional
description and treatment.  JS numbers are modelled as rationals. -/
structure Disease where
  name : String
  probability : Rat
  description : Option String
  treatment : Option String
deriving DecidableEq

/-- `interface TreatmentPlan`: four lists of recommendation strings. -/
structure TreatmentPlan where
  immediate_steps : List String
  long_term_prevention : List String
  organic_alternatives : List String
  chemical_solutions : List String
deriving DecidableEq

/-- `interface AssessmentResult`: diseases, treatment plan, preview URL. -/
structure AssessmentResult where
  diseases : List Disease
  treatment_plan : TreatmentPlan
  imageUrl : String
deriving DecidableEq

/-- The JSON body a successful `/api/generate-treatment` response parses
to.  Each of the four fields is either absent (`none`, falsy in the
page's validation test) or a present array (`some`, truthy in JS even
when empty). -/
structure GenResponse where
  immediate_steps : Option (List String)
  long_term_prevention : Option (List String)
  organic_alternatives : Option (List String)
  chemical_solutions : Option (List String)
deriving DecidableEq

/-- Outcome of the treatment-generation network call: `failure` covers a
rejected `fetch` as well as a non-`ok` HTTP response (both paths throw
inside the `try`); `success` carries the parsed JSON body. -/
inductive GenOutcome
  | failure
  | success (data : GenResponse)
deriving DecidableEq

/-- Outcome of the Plant.id diagnostic call: `failure` covers a rejected
`fetch`, a non-`ok` response, and a body without
`health_assessment.diseases`; `ok` carries the disease list. -/
inductive DiagOutcome
  | failure
  | ok (diseases : List Disease)
deriving DecidableEq

/-- One argument record passed to `toast`. -/
structure Toast where
  title : String
  description : String
  destructive : Bool
deriving DecidableEq

/-- The component's React state plus the toast queue. -/
structure ComponentState where
  selectedImage : Option FileModel
  previewUrl : String
  isLoading : Bool
  isGeneratingTreatment : Bool
  result : Option AssessmentResult
  toasts : List Toast
deriving DecidableEq

/-- Network requests issued during `handleAssess`, in order. -/
inductive Event
  | diagCall
  | genCall (diseases : List Disease) (prompt : String)
deriving DecidableEq

/-- Floor of a rational, computed from its reduced fraction (integer
division `Int.ediv` by the positive denominator is floor division). -/
def ratFloor (x : Rat) : Int :=
  x.num / (x.den : Int)

/-- JavaScript `x.toFixed(1)` for the nonnegative numbers that arise
here: round `10 * x` half away from zero (half up, since `x ≥ 0`) and
print the integer and the single remaining decimal digit. -/
def toFixed1 (x : Rat) : String :=
  let n : Int := ratFloor (x * 10 + 1 / 2)
  toString (n / 10) ++ "." ++ toString (n % 10)

/-- The per-disease fragment of the generation prompt:
`` `${d.name} (${(d.probability * 100).toFixed(1)}% confidence)` ``. -/
def promptDiseaseEntry (d : Disease) : String :=
  d.name ++ " (" ++ toFixed1 (d.probability * 100) ++ "% confidence)"

/-- Fixed text before the joined disease list in the prompt template. -/
def promptHead : String :=
  "Act as a plant pathologist. For these detected diseases: "

/-- Fixed text after the joined disease list in the prompt template. -/
def promptTail : String :=
  ". \n        Provide:\n        1. Immediate treatment steps\n        2. Long-term prevention strategies\n        3. Organic alternatives\n        4. Chemical solutions (if necessary)\n        Format as JSON with markdown formatting in descriptions."

/-- The full prompt built at the top of `generateTreatmentPlan`. -/
def buildPrompt (diseases : List Disease) : String :=
  promptHead ++ String.intercalate ", " (diseases.map promptDiseaseEntry) ++ promptTail

/-- The disease confidence string rendered in the results view:
`{(disease.probability * 100).toFixed(1)}% confidence`. -/
def renderConfidence (d : Disease) : String :=
  toFixed1 (d.probability * 100) ++ "% confidence"

/-- The hardcoded fallback treatment plan returned by the `catch` block
of `generateTreatmentPlan`. -/
def fallbackPlan : TreatmentPlan where
  immediate_steps :=
    [ "Isolate affected plants to prevent spread",
      "Remove and destroy severely infected parts",
      "Monitor plant health daily" ]
  long_term_prevention :=
    [ "Maintain proper plant spacing for air circulation",
      "Follow recommended watering practices",
      "Regular inspection of plants" ]
  organic_alternatives :=
    [ "Use neem oil solution",
      "Apply baking soda spray",
      "Try garlic-based natural fungicide" ]
  chemical_solutions :=
    [ "Consult with a local agricultural expert for specific chemical treatments",
      "Follow safety guidelines when using chemical treatments" ]

/-- The all-empty placeholder plan stored right after diagnosis. -/
def emptyPlan : TreatmentPlan where
  immediate_steps := []
  long_term_prevention := []
  organic_alternatives := []
  chemical_solutions := []

/-- The `try` body of `generateTreatmentPlan`: throw on network failure
(`!response.ok` or rejected fetch), throw when any of the four fields is
absent (falsy), otherwise return the parsed plan. -/
def tryGenerateTreatmentPlan (outcome : GenOutcome) : Except String TreatmentPlan :=
  match outcome with
  | .failure => .error "Failed to generate treatment plan"
  | .success data =>
    match data.immediate_steps, data.long_term_prevention,
          data.organic_alternatives, data.chemical_solutions with
    | some a, some b, some c, some d => .ok ⟨a, b, c, d⟩
    | _, _, _, _ => .error "Invalid treatment plan format"

/-- `generateTreatmentPlan`: issues the generation request (first
component: the calls made, carrying the request body's disease list and
prompt) and returns the plan.  The `catch` block converts every thrown
error into the fallback plan, so the `Except` is `.ok` in both branches;
`.error` would model a rejection propagating to the caller. -/
def generateTreatmentPlan (diseases : List Disease) (outcome : GenOutcome) :
    List Event × Except String TreatmentPlan :=
  ([Event.genCall diseases (buildPrompt diseases)],
   match tryGenerateTreatmentPlan outcome with
   | .ok plan => .ok plan
   | .error _ => .ok fallbackPlan)

/-- Toast shown when `handleAssess` runs with no image selected. -/
def noImageToast : Toast where
  title := "No image selected"
  description := "Please select an image to assess"
  destructive := true

/-- Toast shown by the outer `catch` when diagnosis fails. -/
def assessFailedToast : Toast where
  title := "Assessment Failed"
  description := "Failed to assess plant health. Please try again."
  destructive := true

/-- Toast of the inner `catch` around `generateTreatmentPlan`. -/
def treatmentFailedToast : Toast where
  title := "Treatment Plan Generation Failed"
  description := "We couldn\x27t generate a treatment plan, but you can still see the disease diagnosis."
  destructive := true

/-- Toast shown after the treatment block completes. -/
def assessCompleteToast : Toast where
  title := "Assessment Complete"
  description := "Plant health assessment has been completed successfully"
  destructive := false

/-- Result of one `handleAssess` run: the final state, the network calls
issued in order, and the values passed to `setResult` in order. -/
structure AssessOutput where
  state : ComponentState
  calls : List Event
  resultHistory : List (Option AssessmentResult)
deriving DecidableEq

/-- `handleAssess`, sequentialised.  With no image selected it only
toasts and returns.  Otherwise it sets `isLoading`, issues the
diagnostic call; on failure the outer `catch` toasts and the `finally`
clears `isLoading`.  On success it stores the pending result (diseases
with the all-empty plan), sets `isGeneratingTreatment`, runs
`generateTreatmentPlan` (whose own `catch` already yields the fallback),
and on the unreachable rejection path would run the inner `catch`'s
toast; both paths then clear `isGeneratingTreatment` and show the
completion toast, and `finally` clears `isLoading`. -/
def handleAssess (st : ComponentState) (diag : DiagOutcome) (gen : GenOutcome) :
    AssessOutput :=
  match st.selectedImage with
  | none =>
      ⟨{ st with toasts := st.toasts ++ [noImageToast] }, [], []⟩
  | some _ =>
      let st0 := { st with isLoading := true }
      match diag with
      | .failure =>
          ⟨{ st0 with toasts := st0.toasts ++ [assessFailedToast], isLoading := false },
           [Event.diagCall], []⟩
      | .ok diseases =>
          let pending : AssessmentResult :=
            ⟨diseases, emptyPlan, st0.previewUrl⟩
          let st1 := { st0 with result := some pending }
          let st2 := { st1 with isGeneratingTreatment := true }
          let gcalls := (generateTreatmentPlan diseases gen).1
          match (generateTreatmentPlan diseases gen).2 with
          | .ok plan =>
              let newResult :=
                st2.result.map fun prev => { prev with treatment_plan := plan }
              let st3 := { st2 with result := newResult }
              let st4 := { st3 with isGeneratingTreatment := false }
              let st5 := { st4 with toasts := st4.toasts ++ [assessCompleteToast] }
              ⟨{ st5 with isLoading := false },
               Event.diagCall :: gcalls, [some pending, newResult]⟩
          | .error _ =>
              let st3 := { st2 with toasts := st2.toasts ++ [treatmentFailedToast] }
              let st4 := { st3 with isGeneratingTreatment := false }
              let st5 := { st4 with toasts := st4.toasts ++ [assessCompleteToast] }
              ⟨{ st5 with isLoading := false },
               Event.diagCall :: gcalls, [some pending]⟩

/-- `handleImageSelect`: `e.target.files?.[0]` — with a file, store it,
mint the preview URL, and clear the result; with none, do nothing. -/
def handleImageSelect (st : ComponentState) (files : Option (List FileModel)) :
    ComponentState :=
  match files.bind List.head? with
  | some file =>
      { st with selectedImage := some file,
                previewUrl := file.objectURL,
                result := none }
  | none => st

/-- User/network actions driving the component. -/
inductive Action
  | selectImage (files : Option (List FileModel))
  | assess (diag : DiagOutcome) (gen : GenOutcome)

/-- One action applied to the component state. -/
def step (st : ComponentState) (a : Action) : ComponentState :=
  match a with
  | .selectImage files => handleImageSelect st files
  | .assess diag gen => (handleAssess st diag gen).state

/-- The initial `useState` values. -/
def initState : ComponentState where
  selectedImage := none
  previewUrl := ""
  isLoading := false
  isGeneratingTreatment := false
  result := none
  toasts := []

/-- The state after a sequence of actions from the initial state. -/
def run (acts : List Action) : ComponentState :=
  acts.foldl step initState

/-- A generation response with at least one of the four fields absent
(the condition of the page's validation `throw`). -/
def genMissingField (data : GenResponse) : Prop :=
  data.immediate_steps = none ∨ data.long_term_prevention = none ∨
    data.organic_alternatives = none ∨ data.chemical_solutions = none

instance (data : GenResponse) : Decidable (genMissingField data) := by
  unfold genMissingField; infer_instance

/-- All four lists of a plan are empty (the pending placeholder). -/
def planAllEmpty (p : TreatmentPlan) : Prop :=
  p.immediate_steps = [] ∧ p.long_term_prevention = [] ∧
    p.organic_alternatives = [] ∧ p.chemical_solutions = []

instance (p : TreatmentPlan) : Decidable (planAllEmpty p) := by
  unfold planAllEmpty; infer_instance

/-- All four lists of a plan are nonempty ("all populated"). -/
def planAllPopulated (p : TreatmentPlan) : Prop :=
  p.immediate_steps ≠ [] ∧ p.long_term_prevention ≠ [] ∧
    p.organic_alternatives ≠ [] ∧ p.chemical_solutions ≠ []

instance (p : TreatmentPlan) : Decidable (planAllPopulated p) := by
  unfold planAllPopulated; infer_instance

/-- The plan is the field-for-field content of a generation response in
which all four fields were present (passed validation). -/
def planFromValidated (gen : GenOutcome) (p : TreatmentPlan) : Prop :=
  ∃ data, gen = GenOutcome.success data ∧
    data.immediate_steps = some p.immediate_steps ∧
    data.long_term_prevention = some p.long_term_prevention ∧
    data.organic_alternatives = some p.organic_alternatives ∧
    data.chemical_solutions = some p.chemical_solutions

/-- Sample file for concrete runs. -/
def sampleFile : FileModel where
  name := "leaf.jpg"
  objectURL := "blob:leaf.jpg"

/-- Sample disease with confidence 0.5. -/
def sampleDisease : Disease where
  name := "Leaf spot"
  probability := 1 / 2
  description := none
  treatment := none

/-- Sample disease with confidence 0.823 (the spec's formatting example). -/
def sampleDisease823 : Disease where
  name := "Early blight"
  probability := 823 / 1000
  description := none
  treatment := none

/-- A generation response that passes the page's validation (all four
fields present) although its `immediate_steps` array is empty: empty
arrays are truthy in JS, so `!data.immediate_steps` does not fire. -/
def badGenData : GenResponse where
  immediate_steps := some []
  long_term_prevention := some ["Maintain proper plant spacing for air circulation"]
  organic_alternatives := some ["Use neem oil solution"]
  chemical_solutions := some ["Follow safety guidelines when using chemical treatments"]

/-- The plan `generateTreatmentPlan` resolves to: the validated response
body, or the fallback plan via the internal `catch`. -/
def resolvedPlan (gen : GenOutcome) : TreatmentPlan :=
  match tryGenerateTreatmentPlan gen with
  | .ok plan => plan
  | .error _ => fallbackPlan

/- ### Helper lemmas -/

theorem ratFloor_eq_floor (x : Rat) : ratFloor x = ⌊x⌋ := by
  rw [Rat.floor_def]; rfl

theorem nat_repr_digit_length {m : Nat} (h : m < 10) : (Nat.repr m).length = 1 := by
  interval_cases m <;> rfl

theorem generate_snd (diseases : List Disease) (gen : GenOutcome) :
    (generateTreatmentPlan diseases gen).2 = Except.ok (resolvedPlan gen) := by
  unfold generateTreatmentPlan resolvedPlan
  cases tryGenerateTreatmentPlan gen <;> rfl

theorem generate_fst (diseases : List Disease) (gen : GenOutcome) :
    (generateTreatmentPlan diseases gen).1 =
      [Event.genCall diseases (buildPrompt diseases)] := rfl

theorem resolvedPlan_eq_fallback (gen : GenOutcome)
    (h : gen = GenOutcome.failure ∨
      ∃ data, gen = GenOutcome.success data ∧ genMissingField data) :
    resolvedPlan gen = fallbackPlan := by
  rcases h with rfl | ⟨data, rfl, hmiss⟩
  · rfl
  · rcases data with ⟨a, b, c, d⟩
    rcases a with _ | a <;> rcases b with _ | b <;> rcases c with _ | c <;>
      rcases d with _ | d <;>
      simp_all [resolvedPlan, tryGenerateTreatmentPlan, genMissingField]

theorem handleAssess_none_eq (st : ComponentState) (diag : DiagOutcome)
    (gen : GenOutcome) (h : st.selectedImage = none) :
    handleAssess st diag gen =
      ⟨{ st with toasts := st.toasts ++ [noImageToast] }, [], []⟩ := by
  rcases st with ⟨img, prev, il, ig, res, ts⟩
  simp only at h
  subst h
  rfl

theorem handleAssess_fail_eq (st : ComponentState) (f : FileModel)
    (gen : GenOutcome) (h : st.selectedImage = some f) :
    handleAssess st DiagOutcome.failure gen =
      ⟨{ st with isLoading := false, toasts := st.toasts ++ [assessFailedToast] },
        [Event.diagCall], []⟩ := by
  rcases st with ⟨img, prev, il, ig, res, ts⟩
  simp only at h
  subst h
  rfl

theorem handleAssess_ok_eq (st : ComponentState) (f : FileModel)
    (diseases : List Disease) (gen : GenOutcome) (h : st.selectedImage = some f) :
    handleAssess st (DiagOutcome.ok diseases) gen =
      ⟨{ st with isLoading := false, isGeneratingTreatment := false,
                 result := some ⟨diseases, resolvedPlan gen, st.previewUrl⟩,
                 toasts := st.toasts ++ [assessCompleteToast] },
        [Event.diagCall, Event.genCall diseases (buildPrompt diseases)],
        [some ⟨diseases, emptyPlan, st.previewUrl⟩,
         some ⟨diseases, resolvedPlan gen, st.previewUrl⟩]⟩ := by
  rcases st with ⟨img, prev, il, ig, res, ts⟩
  simp only at h
  subst h
  cases htry : tryGenerateTreatmentPlan gen <;>
    simp [handleAssess, generateTreatmentPlan, resolvedPlan, htry]

theorem toFixed1_eq (x : Rat) (h0 : 0 ≤ x) (h1 : x ≤ 100) :
    ∃ k : Nat, k ≤ 1000 ∧ |(k : Rat) - x * 10| ≤ 1 / 2 ∧
      toFixed1 x = Nat.repr (k / 10) ++ "." ++ Nat.repr (k % 10) ∧
      (Nat.repr (k % 10)).length = 1 := by
  have hfl : ratFloor (x * 10 + 1 / 2) = ⌊x * 10 + 1 / 2⌋ := ratFloor_eq_floor _
  set n : Int := ⌊x * 10 + 1 / 2⌋ with hn
  have hn0 : 0 ≤ n := by
    apply Int.le_floor.mpr
    push_cast
    linarith
  have hle : (n : Rat) ≤ x * 10 + 1 / 2 := Int.floor_le _
  have hlt : x * 10 + 1 / 2 < n + 1 := Int.lt_floor_add_one _
  have hcast : ((n.toNat : Nat) : Rat) = (n : Rat) := by
    exact_mod_cast congrArg (fun z : Int => (z : Rat)) (Int.toNat_of_nonneg hn0)
  refine ⟨n.toNat, ?_, ?_, ?_, nat_repr_digit_length (Nat.mod_lt _ (by norm_num))⟩
  · have h1001 : (n : Rat) < 1001 := by linarith
    have : n < 1001 := by exact_mod_cast h1001
    omega
  · rw [abs_le]
    constructor <;> rw [hcast] <;> linarith
  · have hk : n = (n.toNat : Int) := (Int.toNat_of_nonneg hn0).symm
    show toString (ratFloor (x * 10 + 1 / 2) / 10) ++ "." ++
        toString (ratFloor (x * 10 + 1 / 2) % 10) = _
    rw [hfl]
    conv_lhs => rw [hk]
    have hdiv : ((n.toNat : Int) / 10) = ((n.toNat / 10 : Nat) : Int) := by
      exact_mod_cast (Int.ofNat_ediv n.toNat 10).symm
    have hmod : ((n.toNat : Int) % 10) = ((n.toNat % 10 : Nat) : Int) :=
      (Int.ofNat_emod n.toNat 10).symm
    rw [hdiv, hmod]
    rfl

theorem tryGenerate_ok_validated (gen : GenOutcome) (plan : TreatmentPlan)
    (h : tryGenerateTreatmentPlan gen = Except.ok plan) :
    planFromValidated gen plan := by
  cases gen with
  | failure => simp [tryGenerateTreatmentPlan] at h
  | success data =>
      rcases data with ⟨a, b, c, d⟩
      rcases a with _ | a <;> rcases b with _ | b <;> rcases c with _ | c <;>
        rcases d with _ | d <;> simp [tryGenerateTreatmentPlan] at h
      subst h
      exact ⟨⟨some a, some b, some c, some d⟩, rfl, rfl, rfl, rfl, rfl⟩

theorem toFixed1_example : toFixed1 ((823 : Rat) / 1000 * 100) = "82.3" := by
  have harg : (823 : Rat) / 1000 * 100 * 10 + 1 / 2 = 1647 / 2 := by norm_num
  have hfloor : ratFloor ((1647 : Rat) / 2) = 823 := by
    rw [ratFloor_eq_floor]
    rw [Int.floor_eq_iff]
    norm_num
  show toString (ratFloor ((823 : Rat) / 1000 * 100 * 10 + 1 / 2) / 10) ++ "." ++
      toString (ratFloor ((823 : Rat) / 1000 * 100 * 10 + 1 / 2) % 10) = "82.3"
  rw [harg, hfloor]
  rfl

/-- State with an image already selected, from which an assessment can
start. -/
def readyState : ComponentState :=
  { initState with selectedImage := some sampleFile, previewUrl := sampleFile.objectURL }

/-- A second sample file, for re-selection scenarios. -/
def sampleFile2 : FileModel where
  name := "leaf2.jpg"
  objectURL := "blob:leaf2.jpg"

/-- State of a fully completed assessment (diagnosis succeeded,
generation failed, fallback substituted). -/
def completedState : ComponentState :=
  (handleAssess readyState (DiagOutcome.ok [sampleDisease]) GenOutcome.failure).state

/- ### Claims -/

/-- Claim C1: whenever the generation response is missing one of the four
required list fields, or the generation network call fails, the returned
treatment plan equals the fixed hardcoded fallback plan exactly; no error
propagates (the result is `Except.ok`). -/
theorem fallback_on_failure_or_missing_field (diseases : List Disease)
    (outcome : GenOutcome)
    (h : outcome = GenOutcome.failure ∨
      ∃ data, outcome = GenOutcome.success data ∧ genMissingField data) :
    (generateTreatmentPlan diseases outcome).2 = Except.ok fallbackPlan := by
  rw [generate_snd, resolvedPlan_eq_fallback outcome h]

/-- Claim C1 witness: a network failure on a one-disease list yields
exactly the fallback plan. -/
theorem fallback_on_failure_or_missing_field_witness :
    (GenOutcome.failure = GenOutcome.failure ∨
        ∃ data, GenOutcome.failure = GenOutcome.success data ∧ genMissingField data) ∧
      (generateTreatmentPlan [sampleDisease] GenOutcome.failure).2 =
        Except.ok fallbackPlan :=
  ⟨Or.inl rfl,
    fallback_on_failure_or_missing_field [sampleDisease] GenOutcome.failure (Or.inl rfl)⟩

/-- Claim C3: a treatment-generation request appears in the calls of an
assessment only if the diagnostic call returned `ok`, with exactly the
diagnosed disease list and its prompt, and the call sequence is exactly
the diagnostic call followed by the generation call. -/
theorem generation_only_after_diagnosis (st : ComponentState) (diag : DiagOutcome)
    (gen : GenOutcome) (ds : List Disease) (p : String)
    (h : Event.genCall ds p ∈ (handleAssess st diag gen).calls) :
    diag = DiagOutcome.ok ds ∧ p = buildPrompt ds ∧
      (handleAssess st diag gen).calls =
        [Event.diagCall, Event.genCall ds (buildPrompt ds)] := by
  rcases hsel : st.selectedImage with _ | f
  · rw [handleAssess_none_eq st diag gen hsel] at h
    simp at h
  · cases diag with
    | failure =>
        rw [handleAssess_fail_eq st f gen hsel] at h
        simp at h
    | ok diseases =>
        rw [handleAssess_ok_eq st f diseases gen hsel] at h
        simp at h
        obtain ⟨rfl, rfl⟩ := h
        exact ⟨rfl, rfl, by rw [handleAssess_ok_eq st f ds gen hsel]⟩

/-- Claim C3 witness: in a concrete successful assessment the generation
call follows the diagnostic call. -/
theorem generation_only_after_diagnosis_witness :
    DiagOutcome.ok [sampleDisease] = DiagOutcome.ok [sampleDisease] ∧
      buildPrompt [sampleDisease] = buildPrompt [sampleDisease] ∧
      (handleAssess readyState (DiagOutcome.ok [sampleDisease]) GenOutcome.failure).calls =
        [Event.diagCall, Event.genCall [sampleDisease] (buildPrompt [sampleDisease])] :=
  generation_only_after_diagnosis readyState (DiagOutcome.ok [sampleDisease])
    GenOutcome.failure [sampleDisease] (buildPrompt [sampleDisease])
    (by rw [handleAssess_ok_eq readyState sampleFile [sampleDisease] GenOutcome.failure rfl]
        simp)

/-- Claim C4: when the diagnostic call fails, the assessment aborts with
the failure toast, the stored result is unchanged, only the single
diagnostic call was made (no retry), and nothing is passed to
`setResult`. -/
theorem diagnosis_failure_aborts (st : ComponentState) (f : FileModel)
    (gen : GenOutcome) (h : st.selectedImage = some f) :
    (handleAssess st DiagOutcome.failure gen).state.result = st.result ∧
      (handleAssess st DiagOutcome.failure gen).state.toasts =
        st.toasts ++ [assessFailedToast] ∧
      (handleAssess st DiagOutcome.failure gen).calls = [Event.diagCall] ∧
      (handleAssess st DiagOutcome.failure gen).resultHistory = [] := by
  rw [handleAssess_fail_eq st f gen h]
  exact ⟨rfl, rfl, rfl, rfl⟩

/-- Claim C4 witness: concrete diagnostic failure from the ready state. -/
theorem diagnosis_failure_aborts_witness :
    readyState.selectedImage = some sampleFile ∧
      ((handleAssess readyState DiagOutcome.failure GenOutcome.failure).state.result =
          readyState.result ∧
        (handleAssess readyState DiagOutcome.failure GenOutcome.failure).state.toasts =
          readyState.toasts ++ [assessFailedToast] ∧
        (handleAssess readyState DiagOutcome.failure GenOutcome.failure).calls =
          [Event.diagCall] ∧
        (handleAssess readyState DiagOutcome.failure GenOutcome.failure).resultHistory = []) :=
  ⟨rfl, diagnosis_failure_aborts readyState sampleFile GenOutcome.failure rfl⟩

/-- Claim C5: selecting a new image from any prior state stores the file,
sets the preview to its object URL, and resets the result to `none`,
leaving the other fields unchanged. -/
theorem image_select_resets_result (st : ComponentState)
    (files : Option (List FileModel)) (f : FileModel)
    (h : files.bind List.head? = some f) :
    handleImageSelect st files =
      { st with selectedImage := some f, previewUrl := f.objectURL,
                result := none } := by
  unfold handleImageSelect
  rw [h]

/-- Claim C5 witness: selecting a second image after a completed
assessment discards the displayed result. -/
theorem image_select_resets_result_witness :
    (some [sampleFile2]).bind List.head? = some sampleFile2 ∧
      handleImageSelect completedState (some [sampleFile2]) =
        { completedState with selectedImage := some sampleFile2,
                              previewUrl := sampleFile2.objectURL,
                              result := none } :=
  ⟨rfl, image_select_resets_result completedState (some [sampleFile2]) sampleFile2 rfl⟩

/-- Claim C7: when diagnosis succeeds with zero diseases, the generation
call is still issued, with the empty disease list and a prompt whose
disease-description portion is the empty join. -/
theorem empty_disease_list_still_generates (st : ComponentState) (f : FileModel)
    (gen : GenOutcome) (h : st.selectedImage = some f) :
    (handleAssess st (DiagOutcome.ok []) gen).calls =
        [Event.diagCall, Event.genCall [] (buildPrompt [])] ∧
      String.intercalate ", " (List.map promptDiseaseEntry []) = "" ∧
      buildPrompt [] = promptHead ++ "" ++ promptTail := by
  refine ⟨?_, rfl, rfl⟩
  rw [handleAssess_ok_eq st f [] gen h]

/-- Claim C7 witness: concrete zero-disease assessment. -/
theorem empty_disease_list_still_generates_witness :
    readyState.selectedImage = some sampleFile ∧
      ((handleAssess readyState (DiagOutcome.ok []) GenOutcome.failure).calls =
          [Event.diagCall, Event.genCall [] (buildPrompt [])] ∧
        String.intercalate ", " (List.map promptDiseaseEntry []) = "" ∧
        buildPrompt [] = promptHead ++ "" ++ promptTail) :=
  ⟨rfl, empty_disease_list_still_generates readyState sampleFile GenOutcome.failure rfl⟩

/-- Claim C9: `generateTreatmentPlan` is total over its error cases — for
every disease list and generation outcome it returns a plan (`Except.ok`)
rather than rejecting — so the treatment-failure `catch` in `handleAssess`
is unreachable: its toast is never added. -/
theorem treatment_plan_total_catch_unreachable (diseases : List Disease)
    (outcome : GenOutcome) (st : ComponentState) (diag : DiagOutcome)
    (gen : GenOutcome) (h : treatmentFailedToast ∉ st.toasts) :
    (∃ plan, (generateTreatmentPlan diseases outcome).2 = Except.ok plan) ∧
      treatmentFailedToast ∉ (handleAssess st diag gen).state.toasts := by
  refine ⟨⟨resolvedPlan outcome, generate_snd diseases outcome⟩, ?_⟩
  rcases hsel : st.selectedImage with _ | f
  · rw [handleAssess_none_eq st diag gen hsel]
    intro hmem
    rcases List.mem_append.mp hmem with hc | hc
    · exact h hc
    · exact absurd (List.mem_singleton.mp hc) (by decide)
  · cases diag with
    | failure =>
        rw [handleAssess_fail_eq st f gen hsel]
        intro hmem
        rcases List.mem_append.mp hmem with hc | hc
        · exact h hc
        · exact absurd (List.mem_singleton.mp hc) (by decide)
    | ok ds =>
        rw [handleAssess_ok_eq st f ds gen hsel]
        intro hmem
        rcases List.mem_append.mp hmem with hc | hc
        · exact h hc
        · exact absurd (List.mem_singleton.mp hc) (by decide)

/-- Claim C9 witness: concrete run with a failing generation service —
the plan is still `ok` and no treatment-failure toast appears. -/
theorem treatment_plan_total_catch_unreachable_witness :
    treatmentFailedToast ∉ readyState.toasts ∧
      ((∃ plan, (generateTreatmentPlan [sampleDisease] GenOutcome.failure).2 =
          Except.ok plan) ∧
        treatmentFailedToast ∉
          (handleAssess readyState (DiagOutcome.ok [sampleDisease])
            GenOutcome.failure).state.toasts) :=
  ⟨List.not_mem_nil treatmentFailedToast,
    treatment_plan_total_catch_unreachable [sampleDisease] GenOutcome.failure
      readyState (DiagOutcome.ok [sampleDisease]) GenOutcome.failure
      (List.not_mem_nil treatmentFailedToast)⟩

/-- Claim C10: an image-selection event carrying no file leaves the
entire component state unchanged. -/
theorem image_select_no_file_noop (st : ComponentState)
    (files : Option (List FileModel)) (h : files.bind List.head? = none) :
    handleImageSelect st files = st := by
  unfold handleImageSelect
  rw [h]

/-- Claim C10 witness: a cancelled file dialog (no file list) changes
nothing in the completed-assessment state. -/
theorem image_select_no_file_noop_witness :
    (none : Option (List FileModel)).bind List.head? = none ∧
      handleImageSelect completedState none = completedState :=
  ⟨rfl, image_select_no_file_noop completedState none rfl⟩

/-- Claim C2 counterexample: a generation response in which all four
fields are present but `immediate_steps` is the empty array passes the
page's validation (empty arrays are truthy in JS), so a reachable
displayed result has `immediate_steps` empty while the other three lists
are populated — neither all-empty nor all-populated. -/
theorem partial_plan_displayed :
    (run [Action.selectImage (some [sampleFile]),
          Action.assess (DiagOutcome.ok [sampleDisease])
            (GenOutcome.success badGenData)]).result =
      some ⟨[sampleDisease],
            ⟨[], ["Maintain proper plant spacing for air circulation"],
             ["Use neem oil solution"],
             ["Follow safety guidelines when using chemical treatments"]⟩,
            "blob:leaf.jpg"⟩ ∧
      ¬ planAllEmpty
          ⟨[], ["Maintain proper plant spacing for air circulation"],
           ["Use neem oil solution"],
           ["Follow safety guidelines when using chemical treatments"]⟩ ∧
      ¬ planAllPopulated
          ⟨[], ["Maintain proper plant spacing for air circulation"],
           ["Use neem oil solution"],
           ["Follow safety guidelines when using chemical treatments"]⟩ :=
  ⟨rfl, by decide, by decide⟩

/-- Claim C2 amended: every value the assessment flow passes to
`setResult` carries a plan that is all-empty (the pending placeholder),
all-populated (in particular the fallback plan), or the verbatim field
content of a generation response that passed validation — which may mix
empty and nonempty lists, since validation only checks presence. -/
theorem displayed_plan_sources (st : ComponentState) (diag : DiagOutcome)
    (gen : GenOutcome) (res : AssessmentResult)
    (h : some res ∈ (handleAssess st diag gen).resultHistory) :
    planAllEmpty res.treatment_plan ∨ planAllPopulated res.treatment_plan ∨
      planFromValidated gen res.treatment_plan := by
  rcases hsel : st.selectedImage with _ | f
  · rw [handleAssess_none_eq st diag gen hsel] at h
    simp at h
  · cases diag with
    | failure =>
        rw [handleAssess_fail_eq st f gen hsel] at h
        simp at h
    | ok ds =>
        rw [handleAssess_ok_eq st f ds gen hsel] at h
        simp only [List.mem_cons, List.mem_singleton, List.not_mem_nil, or_false,
          Option.some.injEq] at h
        rcases h with h | h
        · subst h
          left
          exact ⟨rfl, rfl, rfl, rfl⟩
        · subst h
          cases htry : tryGenerateTreatmentPlan gen with
          | error e =>
              right; left
              show planAllPopulated (resolvedPlan gen)
              have hfb : resolvedPlan gen = fallbackPlan := by
                unfold resolvedPlan
                rw [htry]
              rw [hfb]
              decide
          | ok plan =>
              right; right
              show planFromValidated gen (resolvedPlan gen)
              have hpl : resolvedPlan gen = plan := by
                unfold resolvedPlan
                rw [htry]
              rw [hpl]
              exact tryGenerate_ok_validated gen plan htry

/-- Claim C2 amended witness: in a concrete successful run the pending
snapshot's plan is all-empty. -/
theorem displayed_plan_sources_witness :
    (some (⟨[sampleDisease], emptyPlan, readyState.previewUrl⟩ : AssessmentResult) ∈
        (handleAssess readyState (DiagOutcome.ok [sampleDisease])
          GenOutcome.failure).resultHistory) ∧
      (planAllEmpty emptyPlan ∨ planAllPopulated emptyPlan ∨
        planFromValidated GenOutcome.failure emptyPlan) :=
  ⟨by rw [handleAssess_ok_eq readyState sampleFile [sampleDisease] GenOutcome.failure rfl]
      simp,
    displayed_plan_sources readyState (DiagOutcome.ok [sampleDisease]) GenOutcome.failure
      ⟨[sampleDisease], emptyPlan, readyState.previewUrl⟩
      (by rw [handleAssess_ok_eq readyState sampleFile [sampleDisease] GenOutcome.failure rfl]
          simp)⟩

/-- Claim C8 counterexample: in a run where the generation call fails
outright, the only toast shown is the completion toast — the
"Treatment Plan Generation Failed" notification is not shown, because
`generateTreatmentPlan` swallows the failure and returns the fallback. -/
theorem generation_failure_no_notification :
    (handleAssess readyState (DiagOutcome.ok [sampleDisease])
        GenOutcome.failure).state.toasts = [assessCompleteToast] ∧
      treatmentFailedToast ∉
        (handleAssess readyState (DiagOutcome.ok [sampleDisease])
          GenOutcome.failure).state.toasts :=
  ⟨by decide, by decide⟩

/-- Claim C8 amended: when treatment-plan generation fails (network
failure or missing field), no failure notification is shown: the failure
is silently replaced by the fallback plan inside `generateTreatmentPlan`,
the caller's notification branch never runs, and the user sees only the
normal completion toast. -/
theorem generation_failure_silent_fallback (st : ComponentState) (f : FileModel)
    (diseases : List Disease) (gen : GenOutcome) (h : st.selectedImage = some f)
    (hfail : gen = GenOutcome.failure ∨
      ∃ data, gen = GenOutcome.success data ∧ genMissingField data) :
    (handleAssess st (DiagOutcome.ok diseases) gen).state.result =
        some ⟨diseases, fallbackPlan, st.previewUrl⟩ ∧
      (handleAssess st (DiagOutcome.ok diseases) gen).state.toasts =
        st.toasts ++ [assessCompleteToast] ∧
      (treatmentFailedToast ∉ st.toasts →
        treatmentFailedToast ∉
          (handleAssess st (DiagOutcome.ok diseases) gen).state.toasts) := by
  rw [handleAssess_ok_eq st f diseases gen h, resolvedPlan_eq_fallback gen hfail]
  refine ⟨rfl, rfl, ?_⟩
  intro hn hmem
  rcases List.mem_append.mp hmem with hc | hc
  · exact hn hc
  · exact absurd (List.mem_singleton.mp hc) (by decide)

/-- Claim C8 amended witness: concrete failing generation run. -/
theorem generation_failure_silent_fallback_witness :
    readyState.selectedImage = some sampleFile ∧
      ((handleAssess readyState (DiagOutcome.ok [sampleDisease])
            GenOutcome.failure).state.result =
          some ⟨[sampleDisease], fallbackPlan, readyState.previewUrl⟩ ∧
        (handleAssess readyState (DiagOutcome.ok [sampleDisease])
            GenOutcome.failure).state.toasts =
          readyState.toasts ++ [assessCompleteToast] ∧
        (treatmentFailedToast ∉ readyState.toasts →
          treatmentFailedToast ∉
            (handleAssess readyState (DiagOutcome.ok [sampleDisease])
              GenOutcome.failure).state.toasts)) :=
  ⟨rfl, generation_failure_silent_fallback readyState sampleFile [sampleDisease]
    GenOutcome.failure rfl (Or.inl rfl)⟩

/-- Claim C6: for a disease with probability in `[0,1]`, both the results
view and the generation prompt render the confidence as the probability
scaled by 100 and shown with exactly one decimal digit: there is an
integer `k` within one half of `probability * 1000` such that both
renderings show `k / 10` and the single digit `k % 10`. -/
theorem confidence_rendered_one_decimal (d : Disease) (h0 : 0 ≤ d.probability)
    (h1 : d.probability ≤ 1) :
    ∃ k : Nat, k ≤ 1000 ∧ |(k : Rat) - d.probability * 1000| ≤ 1 / 2 ∧
      renderConfidence d =
        Nat.repr (k / 10) ++ "." ++ Nat.repr (k % 10) ++ "% confidence" ∧
      promptDiseaseEntry d =
        d.name ++ " (" ++ Nat.repr (k / 10) ++ "." ++ Nat.repr (k % 10) ++
          "% confidence)" ∧
      (Nat.repr (k % 10)).length = 1 := by
  obtain ⟨k, hk, habs, hstr, hlen⟩ :=
    toFixed1_eq (d.probability * 100) (by nlinarith) (by nlinarith)
  refine ⟨k, hk, ?_, ?_, ?_, hlen⟩
  · have hmul : d.probability * 100 * 10 = d.probability * 1000 := by ring
    rwa [hmul] at habs
  · show toFixed1 (d.probability * 100) ++ "% confidence" = _
    rw [hstr]
  · show d.name ++ " (" ++ toFixed1 (d.probability * 100) ++ "% confidence)" = _
    rw [hstr]
    simp [String.append_assoc]

/-- Claim C6 witness: probability 0.823 is rendered as "82.3%
confidence" in both places. -/
theorem confidence_rendered_one_decimal_witness :
    0 ≤ sampleDisease823.probability ∧ sampleDisease823.probability ≤ 1 ∧
      renderConfidence sampleDisease823 = "82.3% confidence" ∧
      (∃ k : Nat, k ≤ 1000 ∧
        |(k : Rat) - sampleDisease823.probability * 1000| ≤ 1 / 2 ∧
        renderConfidence sampleDisease823 =
          Nat.repr (k / 10) ++ "." ++ Nat.repr (k % 10) ++ "% confidence" ∧
        promptDiseaseEntry sampleDisease823 =
          sampleDisease823.name ++ " (" ++ Nat.repr (k / 10) ++ "." ++
            Nat.repr (k % 10) ++ "% confidence)" ∧
        (Nat.repr (k % 10)).length = 1) :=
  ⟨by norm_num [sampleDisease823],
    by norm_num [sampleDisease823],
    by show toFixed1 (sampleDisease823.probability * 100) ++ "% confidence" = _
       rw [show sampleDisease823.probability = (823 : Rat) / 1000 from rfl,
         toFixed1_example]
       rfl,
    confidence_rendered_one_decimal sampleDisease823
      (by norm_num [sampleDisease823]) (by norm_num [sampleDisease823])⟩

end AgriGenie
